import Mathlib

/-!
Shallow embedding of the DAID Flask backend (src/DAID/app.py).

The repository is a single Flask application with three routes; the only
route with logic is POST /api/generate_analysis, embedded below as a pure
function over an explicit model of its inputs:

* the GEMINI_API_KEY environment variable read once at process start
  (an Option String; Python treats both a missing variable and the empty
  string as falsy in the guard at the top of the handler);
* the result of Flask request.json (none models the exception Flask
  raises for a missing body, a non-JSON content type, or malformed JSON;
  inside the handler try-block such an exception is caught by the broad
  except Exception clause);
* the external generative-AI provider, modelled as a function from the
  system instruction and the prompt to either a returned text or a raised
  exception (an APIError or any other exception, folded into ProviderErr).

The handler also returns the list of provider invocations it performed, so
that call-count and call-argument properties can be stated.
-/

namespace DAID

/-- JSON values, as parsed by Flask request.json and produced by jsonify. -/
inductive Json where
  | null
  | bool (b : Bool)
  | num (n : Int)
  | str (s : String)
  | arr (xs : List Json)
  | obj (fields : List (String × Json))

/-- Python truthiness of a JSON value, as used by the guards
`if not GEMINI_API_KEY` and `if not user_input` in app.py. -/
def pyTruthy : Json → Bool
  | .null => false
  | .bool b => b
  | .num n => n != 0
  | .str s => s != ""
  | .arr xs => !xs.isEmpty
  | .obj fs => !fs.isEmpty

mutual

/-- Python repr of a JSON value (used when a non-string value is
interpolated inside another value by an f-string; string escaping inside
repr is elided, no claim depends on it). -/
def pyRepr : Json → String
  | .null => "None"
  | .bool true => "True"
  | .bool false => "False"
  | .num n => toString n
  | .str s => "\x27" ++ s ++ "\x27"
  | .arr xs => "[" ++ pyReprList xs ++ "]"
  | .obj fs => "\x7b" ++ pyReprFields fs ++ "\x7d"

/-- Comma-separated reprs of the elements of a list. -/
def pyReprList : List Json → String
  | [] => ""
  | [x] => pyRepr x
  | x :: xs => pyRepr x ++ ", " ++ pyReprList xs

/-- Comma-separated reprs of the fields of a dict. -/
def pyReprFields : List (String × Json) → String
  | [] => ""
  | [(k, v)] => "\x27" ++ k ++ "\x27: " ++ pyRepr v
  | (k, v) :: fs => "\x27" ++ k ++ "\x27: " ++ pyRepr v ++ ", " ++ pyReprFields fs

end

/-- Python str() of a JSON value, as performed by f-string interpolation:
strings pass through unchanged, other values fall back to repr-like text. -/
def pyStr : Json → String
  | .str s => s
  | v => pyRepr v

/-- Python data.get(key, default-empty-string): defined only on dicts;
on any other value the attribute access raises (AttributeError), modelled
as none. On a dict, a missing key yields the default empty string. -/
def dictGet (v : Json) (key : String) : Option Json :=
  match v with
  | .obj fields => some ((fields.lookup key).getD (.str ""))
  | _ => none

/-- An exception raised by the provider call: either the APIError caught
by the dedicated except clause of app.py, or any other exception. -/
inductive ProviderErr where
  | apiError (msg : String)
  | otherExc (msg : String)
deriving Repr, DecidableEq

/-- One invocation of client.models.generate_content as performed by
app.py: the model name, the contents (full prompt) and the
system_instruction passed through GenerateContentConfig. -/
structure ProviderCall where
  model : String
  contents : String
  config_system_instruction : String
deriving Repr, DecidableEq

/-- An HTTP response: status code plus jsonify-produced JSON body. -/
structure HttpResponse where
  status : Nat
  body : Json

/-- Error message returned when GEMINI_API_KEY is not configured. -/
def configErrorMsg : String :=
  "Server configuration error: Gemini API key is missing. Please set the GEMINI_API_KEY environment variable."

/-- Error message returned when the userInput field is empty or missing. -/
def noInputMsg : String := "No user input provided for analysis."

/-- Fixed generic message returned by the broad except Exception clause. -/
def genericErrorMsg : String := "An unexpected server error occurred during processing."

/-- Leading text of the error message returned by the except APIError
clause; the message of the exception is appended to it. -/
def apiErrorLead : String := "AI generation failed due to API error: "

/-- The system_instruction string of app.py, verbatim. -/
def system_instruction : String :=
  "\n                You are the Decision & Action Intelligence Designer (DAID), an AI dedicated to providing the best strategic advice possible. \n            \n            Your goal is to ensure the user makes a smart decision based on their Problem Statement and Assumptions.\n            \n            You will be provided with:\n            1. A Problem Statement.\n            2. A list of Assumptions.\n            3. A specific Framework to apply (OR you will be asked to select the best ones).\n\n            Format the output STRICTLY as a JSON object with the following structure:\n            \x7b\n              \"analyses\": [\n                \x7b\n                  \"framework_name\": \"Name of the Framework\",\n                  \"why_selected\": \"A clear explanation of why this framework is appropriate for this specific problem.\",\n                  \"decision\": \"The core decision or recommendation derived from applying this framework.\",\n                  \"sections\": [\n                    \x7b\n                      \"title\": \"Section Title (e.g., Analysis, Key Factors, Risks)\",\n                      \"insights\": [\n                        \"Insight 1\",\n                        \"Insight 2\"\n                      ]\n                    \x7d\n                  ]\n                \x7d\n              ]\n            \x7d\n            "

/-- Text of the f-string of app.py preceding the interpolated user input. -/
def promptHead : String :=
  "Please generate a detailed and logical decision analysis report based on the users input and system prompt:\n\n--- CONSOLIDATED USER DATA ---\n"

/-- Text of the f-string of app.py following the interpolated user input. -/
def promptTail : String :=
  "\n--- END OF DATA ---\nProvide a professional decision analysis report formatted strictly in Markdown."

/-- The full prompt of app.py: fixed instruction text with the user input
interpolated between the delimiter lines. -/
def full_prompt (user_input : String) : String :=
  promptHead ++ user_input ++ promptTail

/-- The generate_analysis handler of app.py as a pure function.
Returns the HTTP response together with the list of provider invocations
performed during the request. -/
def generate_analysis (gemini_api_key : Option String)
    (request_json : Option Json)
    (provider : String → String → Except ProviderErr String) :
    HttpResponse × List ProviderCall :=
  if gemini_api_key.getD "" = "" then
    (⟨500, .obj [("error", .str configErrorMsg), ("success", .bool false)]⟩, [])
  else
    match request_json with
    | none =>
        (⟨500, .obj [("error", .str genericErrorMsg), ("success", .bool false)]⟩, [])
    | some data =>
      match dictGet data "userInput" with
      | none =>
          (⟨500, .obj [("error", .str genericErrorMsg), ("success", .bool false)]⟩, [])
      | some user_input =>
        if !pyTruthy user_input then
          (⟨400, .obj [("error", .str noInputMsg), ("success", .bool false)]⟩, [])
        else
          let prompt := full_prompt (pyStr user_input)
          let call : ProviderCall := ⟨"gemini-2.5-flash", prompt, system_instruction⟩
          match provider system_instruction prompt with
          | .ok text =>
              (⟨200, .obj [("analysisText", .str text), ("success", .bool true)]⟩, [call])
          | .error (.apiError m) =>
              (⟨500, .obj [("error", .str (apiErrorLead ++ m)), ("success", .bool false)]⟩, [call])
          | .error (.otherExc _) =>
              (⟨500, .obj [("error", .str genericErrorMsg), ("success", .bool false)]⟩, [call])

/-- The process-wide state of the Flask module: the only module-level value
the handler reads is GEMINI_API_KEY, loaded once at process start; the
handler writes no module state. -/
structure ServerState where
  gemini_api_key : Option String
deriving Repr, DecidableEq

/-- One HTTP request processed against the process state: the handler reads
the credential from the state and returns the state unchanged (app.py
assigns to no module-level name inside generate_analysis). -/
def handle_request (st : ServerState) (request_json : Option Json)
    (provider : String → String → Except ProviderErr String) :
    ServerState × (HttpResponse × List ProviderCall) :=
  (st, generate_analysis st.gemini_api_key request_json provider)

/-- Whether a jsonify-produced body carries the given key. -/
def hasKey (body : Json) (k : String) : Bool :=
  match body with
  | .obj fields => fields.any (fun kv => kv.1 == k)
  | _ => false

/-- The value stored under the given key of a jsonify-produced body. -/
def lookupKey (body : Json) (k : String) : Option Json :=
  match body with
  | .obj fields => fields.lookup k
  | _ => none

/-- One invocation of the provider as performed by the JSON-output revision
of the handler: the contents (full prompt) and whether the call carried the
directive forcing the response content type to structured JSON. -/
structure ProviderCallJson where
  contents : String
  json_response_directive : Bool
deriving Repr, DecidableEq

/-- Modelled from the spec: the error message of the JSON-output revision
for provider text that fails to parse as JSON (the spec fixes its intent,
malformed output distinct from a provider outage, not its exact text). -/
def malformedOutputMsg : String := "AI returned malformed JSON output."

/-- Modelled from the spec: fixed instruction text of the JSON-output
revision preceding the interpolated caller text (persona plus strict-JSON
output format, exact wording not present under src). -/
def jsonPromptHead : String :=
  "Apply the decision frameworks and output STRICTLY a JSON object.\n--- USER DATA ---\n"

/-- Modelled from the spec: closing delimiter of the JSON-output revision
template following the interpolated caller text. -/
def jsonPromptTail : String := "\n--- END OF DATA ---"

/-- Modelled from the spec: the prompt of the JSON-output revision, the
fixed instruction text with the caller text wrapped in a delimited
template. -/
def json_mode_prompt (user_input : String) : String :=
  jsonPromptHead ++ user_input ++ jsonPromptTail

/-- Modelled from the spec: the JSON-output revision of the analysis
handler, which is not present under src (only the Markdown revision is).
Per the spec it reads the caller text from the userQuery field, invokes the
provider once passing the prompt together with a directive forcing the
response content type to structured JSON, parses the returned text as JSON
(parse_json models the external JSON library), returns the parsed value
under analysisData on success, and on parse failure returns HTTP 500 with a
malformed-output error distinct from the provider-outage error; the
credential guard, input validation and exception classification follow the
Markdown revision. -/
def generate_analysis_json_mode (gemini_api_key : Option String)
    (request_json : Option Json)
    (parse_json : String → Option Json)
    (provider : String → Except ProviderErr String) :
    HttpResponse × List ProviderCallJson :=
  if gemini_api_key.getD "" = "" then
    (⟨500, .obj [("error", .str configErrorMsg), ("success", .bool false)]⟩, [])
  else
    match request_json with
    | none =>
        (⟨500, .obj [("error", .str genericErrorMsg), ("success", .bool false)]⟩, [])
    | some data =>
      match dictGet data "userQuery" with
      | none =>
          (⟨500, .obj [("error", .str genericErrorMsg), ("success", .bool false)]⟩, [])
      | some user_input =>
        if !pyTruthy user_input then
          (⟨400, .obj [("error", .str noInputMsg), ("success", .bool false)]⟩, [])
        else
          let prompt := json_mode_prompt (pyStr user_input)
          let call : ProviderCallJson := ⟨prompt, true⟩
          match provider prompt with
          | .ok text =>
            match parse_json text with
            | some parsed =>
                (⟨200, .obj [("analysisData", parsed), ("success", .bool true)]⟩, [call])
            | none =>
                (⟨500, .obj [("error", .str malformedOutputMsg), ("success", .bool false)]⟩, [call])
          | .error (.apiError m) =>
              (⟨500, .obj [("error", .str (apiErrorLead ++ m)), ("success", .bool false)]⟩, [call])
          | .error (.otherExc _) =>
              (⟨500, .obj [("error", .str genericErrorMsg), ("success", .bool false)]⟩, [call])

/-- C1: with a configured credential, a JSON-object body whose userInput
field holds a non-empty string, and a provider that returns text without
raising, the handler answers HTTP 200 with success true and analysisText
equal to the returned text unchanged. -/
theorem markdown_success_passthrough
    (key : Option String) (hkey : key.getD "" ≠ "")
    (fields : List (String × Json)) (s : String)
    (hfield : fields.lookup "userInput" = some (.str s)) (hs : s ≠ "")
    (provider : String → String → Except ProviderErr String) (t : String)
    (hp : provider system_instruction (full_prompt s) = .ok t) :
    (generate_analysis key (some (.obj fields)) provider).1
      = ⟨200, .obj [("analysisText", .str t), ("success", .bool true)]⟩ := by
  unfold generate_analysis
  rw [if_neg hkey]
  simp [dictGet, hfield, pyTruthy, hs, pyStr, hp]

/-- Witness for C1 at a concrete request and provider stub. -/
theorem markdown_success_passthrough_witness :
    ((some "k" : Option String).getD "" ≠ "")
    ∧ ([("userInput", Json.str "hello")].lookup "userInput" = some (Json.str "hello"))
    ∧ ("hello" ≠ "")
    ∧ (DAID.generate_analysis (some "k")
          (some (.obj [("userInput", .str "hello")])) (fun _ _ => .ok "REPORT")).1
        = ⟨200, .obj [("analysisText", .str "REPORT"), ("success", .bool true)]⟩ :=
  ⟨by decide, rfl, by decide,
    markdown_success_passthrough (some "k") (by decide)
      [("userInput", Json.str "hello")] "hello" rfl (by decide)
      (fun _ _ => .ok "REPORT") "REPORT" rfl⟩

/-- C2: whenever GEMINI_API_KEY is unset or empty, every call answers
HTTP 500 with success false and the configuration-error message,
independent of the request body, and the provider is never invoked. -/
theorem missing_key_fail_fast
    (key : Option String) (hkey : key.getD "" = "")
    (request_json : Option Json)
    (provider : String → String → Except ProviderErr String) :
    generate_analysis key request_json provider
      = (⟨500, .obj [("error", .str configErrorMsg), ("success", .bool false)]⟩, []) := by
  unfold generate_analysis
  rw [if_pos hkey]

/-- Witness for C2 at an unset key and an arbitrary body and stub. -/
theorem missing_key_fail_fast_witness :
    ((none : Option String).getD "" = "")
    ∧ DAID.generate_analysis none
        (some (.obj [("userInput", .str "hello")])) (fun _ _ => .ok "REPORT")
      = (⟨500, .obj [("error", .str configErrorMsg), ("success", .bool false)]⟩, []) :=
  ⟨rfl, missing_key_fail_fast none rfl _ _⟩

/-- C3: with a configured credential and a JSON-object body whose userInput
field is missing or holds the empty string, the handler answers HTTP 400
with success false and invokes no provider. -/
theorem empty_input_client_error
    (key : Option String) (hkey : key.getD "" ≠ "")
    (fields : List (String × Json))
    (hfield : fields.lookup "userInput" = none
      ∨ fields.lookup "userInput" = some (.str ""))
    (provider : String → String → Except ProviderErr String) :
    generate_analysis key (some (.obj fields)) provider
      = (⟨400, .obj [("error", .str noInputMsg), ("success", .bool false)]⟩, []) := by
  unfold generate_analysis
  rw [if_neg hkey]
  rcases hfield with h | h <;> simp [dictGet, h, pyTruthy]

/-- Witness for C3 at a body with no userInput field. -/
theorem empty_input_client_error_witness :
    ((some "k" : Option String).getD "" ≠ "")
    ∧ (([] : List (String × Json)).lookup "userInput" = none)
    ∧ DAID.generate_analysis (some "k") (some (.obj [])) (fun _ _ => .ok "REPORT")
      = (⟨400, .obj [("error", .str noInputMsg), ("success", .bool false)]⟩, []) :=
  ⟨by decide, rfl,
    empty_input_client_error (some "k") (by decide) [] (Or.inl rfl) _⟩

/-- C5: with a configured credential and valid input, a provider call that
raises an APIError yields HTTP 500 with success false and an error message
consisting of the fixed lead text followed by the provider message, so the
provider message is embedded in the error text. -/
theorem api_error_embeds_message
    (key : Option String) (hkey : key.getD "" ≠ "")
    (fields : List (String × Json)) (s : String)
    (hfield : fields.lookup "userInput" = some (.str s)) (hs : s ≠ "")
    (provider : String → String → Except ProviderErr String) (m : String)
    (hp : provider system_instruction (full_prompt s) = .error (.apiError m)) :
    (generate_analysis key (some (.obj fields)) provider).1
      = ⟨500, .obj [("error", .str (apiErrorLead ++ m)), ("success", .bool false)]⟩ := by
  unfold generate_analysis
  rw [if_neg hkey]
  simp [dictGet, hfield, pyTruthy, hs, pyStr, hp]

/-- Witness for C5 at a provider stub raising an APIError. -/
theorem api_error_embeds_message_witness :
    ((some "k" : Option String).getD "" ≠ "")
    ∧ ([("userInput", Json.str "hello")].lookup "userInput" = some (Json.str "hello"))
    ∧ ("hello" ≠ "")
    ∧ (DAID.generate_analysis (some "k") (some (.obj [("userInput", .str "hello")]))
          (fun _ _ => .error (.apiError "quota exceeded"))).1
        = ⟨500, .obj [("error", .str (apiErrorLead ++ "quota exceeded")),
            ("success", .bool false)]⟩ :=
  ⟨by decide, rfl, by decide,
    api_error_embeds_message (some "k") (by decide)
      [("userInput", Json.str "hello")] "hello" rfl (by decide)
      (fun _ _ => .error (.apiError "quota exceeded")) "quota exceeded" rfl⟩

/-- C6: every exception inside the handler other than an APIError — a body
that fails to parse, a body with no attribute get, or any non-APIError
exception raised by the provider call — yields HTTP 500 with success false
and the one fixed generic message, which does not depend on the exception
(the right-hand sides below never mention the exception message m). -/
theorem unexpected_exception_generic_message
    (key : Option String) (hkey : key.getD "" ≠ "") :
    (∀ provider : String → String → Except ProviderErr String,
      (generate_analysis key none provider).1
        = ⟨500, .obj [("error", .str genericErrorMsg), ("success", .bool false)]⟩)
    ∧ (∀ (data : Json) (provider : String → String → Except ProviderErr String),
        dictGet data "userInput" = none →
        (generate_analysis key (some data) provider).1
          = ⟨500, .obj [("error", .str genericErrorMsg), ("success", .bool false)]⟩)
    ∧ (∀ (fields : List (String × Json)) (s : String)
        (provider : String → String → Except ProviderErr String) (m : String),
        fields.lookup "userInput" = some (.str s) → s ≠ "" →
        provider system_instruction (full_prompt s) = .error (.otherExc m) →
        (generate_analysis key (some (.obj fields)) provider).1
          = ⟨500, .obj [("error", .str genericErrorMsg), ("success", .bool false)]⟩) := by
  refine ⟨fun provider => ?_, fun data provider hget => ?_,
    fun fields s provider m hfield hs hp => ?_⟩
  · unfold generate_analysis
    rw [if_neg hkey]
  · unfold generate_analysis
    rw [if_neg hkey]
    simp [hget]
  · unfold generate_analysis
    rw [if_neg hkey]
    simp [dictGet, hfield, pyTruthy, hs, pyStr, hp]

/-- Witness for C6 at a provider stub raising a non-APIError exception. -/
theorem unexpected_exception_generic_message_witness :
    ((some "k" : Option String).getD "" ≠ "")
    ∧ ([("userInput", Json.str "hello")].lookup "userInput" = some (Json.str "hello"))
    ∧ ("hello" ≠ "")
    ∧ ((fun (_ _ : String) =>
          (.error (.otherExc "stack detail") : Except ProviderErr String))
            system_instruction (full_prompt "hello") = .error (.otherExc "stack detail"))
    ∧ (DAID.generate_analysis (some "k") (some (.obj [("userInput", .str "hello")]))
          (fun _ _ => .error (.otherExc "stack detail"))).1
        = ⟨500, .obj [("error", .str genericErrorMsg), ("success", .bool false)]⟩ :=
  ⟨by decide, rfl, by decide, rfl,
    (unexpected_exception_generic_message (some "k") (by decide)).2.2
      [("userInput", Json.str "hello")] "hello"
      (fun _ _ => .error (.otherExc "stack detail")) "stack detail"
      rfl (by decide) rfl⟩

/-- C7: every envelope the handler can return populates exactly one of the
keys analysisText, analysisData and error, and its success field is the
boolean saying whether the populated key is analysisText or analysisData. -/
theorem envelope_exactly_one_payload
    (key : Option String) (request_json : Option Json)
    (provider : String → String → Except ProviderErr String) :
    ((hasKey (generate_analysis key request_json provider).1.body "analysisText").toNat
      + (hasKey (generate_analysis key request_json provider).1.body "analysisData").toNat
      + (hasKey (generate_analysis key request_json provider).1.body "error").toNat = 1)
    ∧ lookupKey (generate_analysis key request_json provider).1.body "success"
        = some (.bool
            (hasKey (generate_analysis key request_json provider).1.body "analysisText"
              || hasKey (generate_analysis key request_json provider).1.body "analysisData")) := by
  unfold generate_analysis
  split
  · exact ⟨rfl, rfl⟩
  · split
    · exact ⟨rfl, rfl⟩
    · split
      · exact ⟨rfl, rfl⟩
      · split
        · exact ⟨rfl, rfl⟩
        · simp only []
          split
          · exact ⟨rfl, rfl⟩
          · exact ⟨rfl, rfl⟩
          · exact ⟨rfl, rfl⟩

/-- C8: with a configured credential and valid input, the Markdown-revision
handler performs exactly one provider call, whose contents are the fixed
instruction text with the caller text embedded verbatim between the
delimiters, whatever the provider then does; and the spec-modelled
JSON-output revision likewise performs exactly one call, whose contents
embed the caller text verbatim and which carries the directive forcing the
response content type to structured JSON. -/
theorem provider_called_once_with_template
    (key : Option String) (hkey : key.getD "" ≠ "")
    (fields fieldsJ : List (String × Json)) (s : String)
    (hfield : fields.lookup "userInput" = some (.str s))
    (hfieldJ : fieldsJ.lookup "userQuery" = some (.str s))
    (hs : s ≠ "")
    (provider : String → String → Except ProviderErr String)
    (parse : String → Option Json)
    (providerJ : String → Except ProviderErr String) :
    (generate_analysis key (some (.obj fields)) provider).2
      = [⟨"gemini-2.5-flash", promptHead ++ s ++ promptTail, system_instruction⟩]
    ∧ (generate_analysis_json_mode key (some (.obj fieldsJ)) parse providerJ).2
      = [⟨jsonPromptHead ++ s ++ jsonPromptTail, true⟩] := by
  constructor
  · unfold generate_analysis
    rw [if_neg hkey]
    cases hp : provider system_instruction (full_prompt s) with
    | ok t =>
      simp only [full_prompt] at hp
      simp [dictGet, hfield, pyTruthy, hs, pyStr, hp, full_prompt]
    | error e =>
      simp only [full_prompt] at hp
      cases e with
      | apiError m => simp [dictGet, hfield, pyTruthy, hs, pyStr, hp, full_prompt]
      | otherExc m => simp [dictGet, hfield, pyTruthy, hs, pyStr, hp, full_prompt]
  · unfold generate_analysis_json_mode
    rw [if_neg hkey]
    cases hp : providerJ (json_mode_prompt s) with
    | ok t =>
      simp only [json_mode_prompt] at hp
      cases hq : parse t with
      | none => simp [dictGet, hfieldJ, pyTruthy, hs, pyStr, hp, hq, json_mode_prompt]
      | some v => simp [dictGet, hfieldJ, pyTruthy, hs, pyStr, hp, hq, json_mode_prompt]
    | error e =>
      simp only [json_mode_prompt] at hp
      cases e with
      | apiError m => simp [dictGet, hfieldJ, pyTruthy, hs, pyStr, hp, json_mode_prompt]
      | otherExc m => simp [dictGet, hfieldJ, pyTruthy, hs, pyStr, hp, json_mode_prompt]

/-- Witness for C8 at concrete bodies and stubs. -/
theorem provider_called_once_with_template_witness :
    ((some "k" : Option String).getD "" ≠ "")
    ∧ ([("userInput", Json.str "hi")].lookup "userInput" = some (Json.str "hi"))
    ∧ ([("userQuery", Json.str "hi")].lookup "userQuery" = some (Json.str "hi"))
    ∧ ("hi" ≠ "")
    ∧ (DAID.generate_analysis (some "k") (some (.obj [("userInput", .str "hi")]))
          (fun _ _ => .ok "REPORT")).2
        = [⟨"gemini-2.5-flash", promptHead ++ "hi" ++ promptTail, system_instruction⟩]
    ∧ (DAID.generate_analysis_json_mode (some "k")
          (some (.obj [("userQuery", .str "hi")])) (fun _ => none)
          (fun _ => .ok "not json")).2
        = [⟨jsonPromptHead ++ "hi" ++ jsonPromptTail, true⟩] :=
  have h := provider_called_once_with_template (some "k") (by decide)
    [("userInput", Json.str "hi")] [("userQuery", Json.str "hi")] "hi"
    rfl rfl (by decide) (fun _ _ => .ok "REPORT") (fun _ => none)
    (fun _ => .ok "not json")
  ⟨by decide, rfl, rfl, by decide, h.1, h.2⟩

/-- C9: the handler holds no mutable state: processing a request leaves the
process state unchanged, and a second request with the identical body,
provider and credential configuration, run from the state the first one
left behind, yields the identical response and provider calls. -/
theorem repeat_request_identical
    (st : ServerState) (request_json : Option Json)
    (provider : String → String → Except ProviderErr String) :
    (handle_request st request_json provider).1 = st
    ∧ (handle_request (handle_request st request_json provider).1
        request_json provider).2
      = (handle_request st request_json provider).2 :=
  ⟨rfl, rfl⟩

/-- C10: with a configured credential, a request whose body is absent or
undecodable, or decodes to a JSON value that is not an object, answers
HTTP 500 with the generic internal-error message — not the 400
missing-input error — and invokes no provider. -/
theorem non_object_body_internal_error
    (key : Option String) (hkey : key.getD "" ≠ "")
    (provider : String → String → Except ProviderErr String) :
    (generate_analysis key none provider
      = (⟨500, .obj [("error", .str genericErrorMsg), ("success", .bool false)]⟩, []))
    ∧ ∀ data : Json, (∀ fields, data ≠ .obj fields) →
        generate_analysis key (some data) provider
          = (⟨500, .obj [("error", .str genericErrorMsg), ("success", .bool false)]⟩, []) := by
  constructor
  · unfold generate_analysis
    rw [if_neg hkey]
  · intro data hdata
    have hget : dictGet data "userInput" = none := by
      cases data with
      | obj fields => exact absurd rfl (hdata fields)
      | null => rfl
      | bool b => rfl
      | num n => rfl
      | str v => rfl
      | arr xs => rfl
    unfold generate_analysis
    rw [if_neg hkey]
    simp [hget]

/-- Witness for C10 at an absent body and at a JSON-array body. -/
theorem non_object_body_internal_error_witness :
    ((some "k" : Option String).getD "" ≠ "")
    ∧ (DAID.generate_analysis (some "k") none (fun _ _ => .ok "REPORT")
        = (⟨500, .obj [("error", .str genericErrorMsg), ("success", .bool false)]⟩, []))
    ∧ (DAID.generate_analysis (some "k") (some (.arr [.str "hello"]))
          (fun _ _ => .ok "REPORT")
        = (⟨500, .obj [("error", .str genericErrorMsg), ("success", .bool false)]⟩, [])) :=
  have h := non_object_body_internal_error (some "k") (by decide)
    (fun _ _ => .ok "REPORT")
  ⟨by decide, h.1, h.2 (.arr [.str "hello"]) (fun _ hx => Json.noConfusion hx)⟩

/-- C4: in the spec-modelled JSON-output revision, with a configured
credential and valid input, the handler parses the provider text as JSON
before responding; when the text fails to parse it answers HTTP 500 with
success false and the malformed-output message, and that message differs
from every provider-outage message the APIError clause can produce. -/
theorem json_mode_malformed_output
    (key : Option String) (hkey : key.getD "" ≠ "")
    (fields : List (String × Json)) (s : String)
    (hfield : fields.lookup "userQuery" = some (.str s)) (hs : s ≠ "")
    (parse : String → Option Json)
    (provider : String → Except ProviderErr String) (t : String)
    (hp : provider (json_mode_prompt s) = .ok t)
    (hparse : parse t = none) :
    (generate_analysis_json_mode key (some (.obj fields)) parse provider).1
      = ⟨500, .obj [("error", .str malformedOutputMsg), ("success", .bool false)]⟩
    ∧ ∀ m : String, malformedOutputMsg ≠ apiErrorLead ++ m := by
  constructor
  · unfold generate_analysis_json_mode
    rw [if_neg hkey]
    simp [dictGet, hfield, pyTruthy, hs, pyStr, hp, hparse]
  · intro m hm
    have hlen := congrArg String.length hm
    rw [String.length_append] at hlen
    have h1 : malformedOutputMsg.length = 34 := rfl
    have h2 : apiErrorLead.length = 39 := rfl
    omega

/-- Witness for C4 at a provider stub returning unparseable text. -/
theorem json_mode_malformed_output_witness :
    ((some "k" : Option String).getD "" ≠ "")
    ∧ ([("userQuery", Json.str "hi")].lookup "userQuery" = some (Json.str "hi"))
    ∧ ("hi" ≠ "")
    ∧ ((fun _ => (.ok "not json" : Except ProviderErr String)) (json_mode_prompt "hi")
        = .ok "not json")
    ∧ ((fun _ => (none : Option Json)) "not json" = none)
    ∧ (DAID.generate_analysis_json_mode (some "k")
          (some (.obj [("userQuery", .str "hi")])) (fun _ => none)
          (fun _ => .ok "not json")).1
        = ⟨500, .obj [("error", .str malformedOutputMsg), ("success", .bool false)]⟩ :=
  have h := json_mode_malformed_output (some "k") (by decide)
    [("userQuery", Json.str "hi")] "hi" rfl (by decide)
    (fun _ => none) (fun _ => .ok "not json") "not json" rfl rfl
  ⟨by decide, rfl, by decide, rfl, rfl, h.1⟩

end DAID
